import Mathlib

/-!
Shallow embedding of the `fastapi_advanced` core library
(`src/fastapi_advanced/core.py`, `src/fastapi_advanced/_speedups_fallback.py`,
`src/fastapi_advanced/exceptions.py`) together with theorems that settle the
specification claims about pagination arithmetic, the error surface, the
msgspec-to-Python type mapping, and the schema-conversion cache.

Machine integers are modelled as `Int` (Python integers are unbounded), Python
`//` (floor division) as `Int.fdiv`, Python exceptions as `Except` error
values, and Python `set`/`dict` state as Lean lists with set/assoc-list
semantics.
-/

namespace FastapiAdvanced

/-! ### Pagination errors (`exceptions.py`, class `PaginationError`)

`PaginationError.__init__` receives keyword arguments `page`, `page_size`,
`total_results` (each `None` unless passed) and builds an `issues` list naming
every passed-and-invalid parameter; the stored attributes are the passed
values.  The message string "x must be >= 1, got v" is modelled structurally
as a `PaginationIssue` value. -/

inductive PaginationIssue where
  | pageTooSmall (got : Int)
  | pageSizeTooSmall (got : Int)
  | totalResultsNegative (got : Int)
  deriving DecidableEq

structure PaginationError where
  page : Option Int
  page_size : Option Int
  total_results : Option Int
  deriving DecidableEq

/-- The `issues` list built by `PaginationError.__init__`: one entry per
parameter that was passed (is not `None`) and violates its bound, in the fixed
order page, page_size, total_results. -/
def PaginationError.issues (e : PaginationError) : List PaginationIssue :=
  (match e.page with
    | some p => if p < 1 then [.pageTooSmall p] else []
    | none => []) ++
  (match e.page_size with
    | some ps => if ps < 1 then [.pageSizeTooSmall ps] else []
    | none => []) ++
  (match e.total_results with
    | some tr => if tr < 0 then [.totalResultsNegative tr] else []
    | none => [])

/-! ### Pagination arithmetic (`_speedups_fallback.py`, class
`PaginationCalculator`) -/

structure PaginationCalculator where
  total_results : Int
  page_size : Int
  current_page : Int
  total_pages : Int
  has_next : Bool
  has_previous : Bool
  deriving DecidableEq

/-- `PaginationCalculator.__init__(total_results, page_size, current_page)`:
`total_pages = (total_results + page_size - 1) // page_size` when
`page_size > 0`, else `0`; `has_next = current_page < total_pages`;
`has_previous = current_page > 1`.  Python `//` is floor division, `Int.fdiv`. -/
def PaginationCalculator.make (total_results page_size current_page : Int) :
    PaginationCalculator :=
  let total_pages : Int :=
    if page_size > 0 then (total_results + page_size - 1).fdiv page_size else 0
  { total_results := total_results
    page_size := page_size
    current_page := current_page
    total_pages := total_pages
    has_next := decide (current_page < total_pages)
    has_previous := decide (current_page > 1) }

/-- `calculate_pagination_fast` returns the calculator's metadata dictionary;
we return the calculator record itself. -/
def calculate_pagination_fast (total_results page_size current_page : Int) :
    PaginationCalculator :=
  PaginationCalculator.make total_results page_size current_page

/-! ### Paginated response envelope (`core.py`, `paginated_response`, and
`_speedups_fallback.py`, `create_paginated_dict_fast`) -/

structure PaginatedResponse (α : Type) where
  items : List α
  current_page : Int
  total_pages : Int
  total_results : Int
  page_size : Int
  has_next : Bool
  has_previous : Bool
  status : String
  message : String
  deriving DecidableEq

/-- `create_paginated_dict_fast`: computes the pagination metadata and builds
the paginated response dictionary. -/
def create_paginated_dict_fast {α : Type} (items : List α)
    (total_results current_page page_size : Int) (message status : String) :
    PaginatedResponse α :=
  let metadata := calculate_pagination_fast total_results page_size current_page
  { items := items
    current_page := metadata.current_page
    total_pages := metadata.total_pages
    total_results := metadata.total_results
    page_size := metadata.page_size
    has_next := metadata.has_next
    has_previous := metadata.has_previous
    message := message
    status := status }

/-- `core.paginated_response` up to envelope construction: validates the
pagination parameters (raising `PaginationError` with exactly the one keyword
argument the source passes at each raise site), empties `items` when the
requested page exceeds `max_page` while `total_results > 0`, and builds the
envelope.  `message or ""` is modelled by `Option.getD`. -/
def paginated_response {α : Type} (items : List α)
    (total_results page page_size : Int) (message : Option String)
    (status : String) : Except PaginationError (PaginatedResponse α) :=
  if page < 1 then
    .error { page := some page, page_size := none, total_results := none }
  else if page_size < 1 then
    .error { page := none, page_size := some page_size, total_results := none }
  else if total_results < 0 then
    .error { page := none, page_size := none, total_results := some total_results }
  else
    let items' :=
      if page_size > 0 then
        let max_page := max 1 ((total_results + page_size - 1).fdiv page_size)
        if page > max_page ∧ total_results > 0 then ([] : List α) else items
      else items
    .ok (create_paginated_dict_fast items' total_results page page_size
      (message.getD "") status)

/-! ### Arithmetic helper lemmas about the `total_pages` expression -/

/-- Bounds characterizing `(t + p - 1) // p` as the ceiling of `t / p`. -/
theorem fdiv_ceil_bounds (t p : Int) (hp : 0 < p) :
    p * ((t + p - 1).fdiv p) < t + p ∧ t ≤ p * ((t + p - 1).fdiv p) := by
  rw [Int.fdiv_eq_ediv _ hp.le]
  have h := Int.ediv_add_emod (t + p - 1) p
  have h0 : 0 ≤ (t + p - 1) % p := Int.emod_nonneg _ (by omega)
  have h1 : (t + p - 1) % p < p := Int.emod_lt_of_pos _ hp
  set m := p * ((t + p - 1) / p) with hm
  omega

theorem fdiv_ceil_eq_zero (p : Int) (hp : 0 < p) : (0 + p - 1).fdiv p = 0 := by
  have h := fdiv_ceil_bounds 0 p hp
  set q := (0 + p - 1).fdiv p with hq
  rcases lt_trichotomy q 0 with hlt | heq | hgt
  · nlinarith [h.2]
  · exact heq
  · nlinarith [h.1]

theorem fdiv_ceil_pos (t p : Int) (ht : 0 < t) (hp : 0 < p) :
    1 ≤ (t + p - 1).fdiv p := by
  have h := fdiv_ceil_bounds t p hp
  set q := (t + p - 1).fdiv p with hq
  by_contra hcon
  push_neg at hcon
  nlinarith [h.2]

theorem fdiv_ceil_eq_rat_ceil (t p : Int) (hp : 0 < p) :
    (t + p - 1).fdiv p = ⌈(t : ℚ) / (p : ℚ)⌉ := by
  have h := fdiv_ceil_bounds t p hp
  set q := (t + p - 1).fdiv p with hq
  have hpQ : (0 : ℚ) < (p : ℚ) := by exact_mod_cast hp
  symm
  rw [Int.ceil_eq_iff]
  constructor
  · rw [lt_div_iff₀ hpQ]
    have : (q - 1) * p < t := by nlinarith [h.1]
    calc ((q : ℚ) - 1) * p = ((q - 1 : Int) * p : Int) := by push_cast; ring
      _ < t := by exact_mod_cast this
  · rw [div_le_iff₀ hpQ]
    have : t ≤ q * p := by nlinarith [h.2]
    calc (t : ℚ) ≤ ((q * p : Int) : ℚ) := by exact_mod_cast this
      _ = (q : ℚ) * p := by push_cast; ring

/-- On valid parameters, `paginated_response` reaches the envelope-building
branch: the result is the envelope over the (possibly emptied) items list. -/
theorem paginated_response_valid_eq {α : Type} (items : List α)
    (total_results page page_size : Int) (message : Option String) (status : String)
    (hpage : 1 ≤ page) (hps : 1 ≤ page_size) (htr : 0 ≤ total_results) :
    paginated_response items total_results page page_size message status =
      .ok (create_paginated_dict_fast
        (if page > max 1 ((total_results + page_size - 1).fdiv page_size) ∧
            total_results > 0 then ([] : List α) else items)
        total_results page page_size (message.getD "") status) := by
  unfold paginated_response
  rw [if_neg (by omega), if_neg (by omega), if_neg (by omega)]
  simp only [if_pos (show page_size > 0 by omega)]

/-- C6: for every total_results ≥ 0, page ≥ 1 and page_size ≥ 1, the paginated
envelope's metadata satisfies total_pages = ⌈total_results / page_size⌉,
has_next = (page < total_pages), and has_previous = (page > 1). -/
theorem pagination_metadata_arithmetic {α : Type} (items : List α)
    (total_results page page_size : Int)
    (htr : 0 ≤ total_results) (hpage : 1 ≤ page) (hps : 1 ≤ page_size) :
    ∃ env : PaginatedResponse α,
      paginated_response items total_results page page_size none "ok" = .ok env ∧
      env.total_pages = ⌈(total_results : ℚ) / (page_size : ℚ)⌉ ∧
      env.has_next = decide (page < env.total_pages) ∧
      env.has_previous = decide (page > 1) := by
  refine ⟨_, paginated_response_valid_eq items total_results page page_size none "ok"
    hpage hps htr, ?_, ?_, ?_⟩ <;>
    simp only [create_paginated_dict_fast, calculate_pagination_fast,
      PaginationCalculator.make, if_pos (show page_size > 0 by omega)]
  exact (fdiv_ceil_eq_rat_ceil total_results page_size (by omega))

/-- C6 witness at total_results = 95, page = 2, page_size = 10. -/
theorem pagination_metadata_arithmetic_witness :
    ∃ env : PaginatedResponse Nat,
      paginated_response ([3] : List Nat) 95 2 10 none "ok" = .ok env ∧
      env.total_pages = ⌈(95 : ℚ) / (10 : ℚ)⌉ ∧
      env.has_next = decide ((2 : Int) < env.total_pages) ∧
      env.has_previous = decide ((2 : Int) > 1) :=
  pagination_metadata_arithmetic [3] 95 2 10 (by omega) (by omega) (by omega)

/-- C5 as stated is false on the code: with total_results = 0, the valid page 2
and page_size 10, the envelope has has_previous = true (the code computes
has_previous = page > 1 independently of total_results), contradicting the
claim's has_previous = False. -/
theorem pagination_zero_total_counterexample :
    ¬ (∀ (page page_size : Int), 1 ≤ page → 1 ≤ page_size →
        ∀ env : PaginatedResponse Nat,
          paginated_response ([] : List Nat) 0 page page_size none "ok" = .ok env →
          env.total_pages = 0 ∧ env.has_next = false ∧ env.has_previous = false) := by
  intro h
  have h2 := h 2 10 (by omega) (by omega)
    (create_paginated_dict_fast ([] : List Nat) 0 2 10 "" "ok") (by rfl)
  have hprev : (create_paginated_dict_fast ([] : List Nat) 0 2 10 "" "ok").has_previous
      = true := by rfl
  exact absurd (hprev.symm.trans h2.2.2) (by decide)

/-- C5 amended: for every valid page ≥ 1 and page_size ≥ 1, an envelope built
with total_results = 0 has total_pages = 0, has_next = False, and
has_previous = (page > 1) — so has_previous is False exactly when page = 1. -/
theorem pagination_zero_total_metadata {α : Type} (items : List α)
    (page page_size : Int) (hpage : 1 ≤ page) (hps : 1 ≤ page_size) :
    ∃ env : PaginatedResponse α,
      paginated_response items 0 page page_size none "ok" = .ok env ∧
      env.total_pages = 0 ∧ env.has_next = false ∧
      env.has_previous = decide (page > 1) := by
  refine ⟨_, paginated_response_valid_eq items 0 page page_size none "ok"
    hpage hps (by omega), ?_, ?_, ?_⟩ <;>
    simp only [create_paginated_dict_fast, calculate_pagination_fast,
      PaginationCalculator.make, if_pos (show page_size > 0 by omega),
      fdiv_ceil_eq_zero page_size (show (0 : Int) < page_size by omega)]
  exact decide_eq_false (by omega)

/-- C5 amended witness at page = 2, page_size = 10. -/
theorem pagination_zero_total_metadata_witness :
    ∃ env : PaginatedResponse Nat,
      paginated_response ([] : List Nat) 0 2 10 none "ok" = .ok env ∧
      env.total_pages = 0 ∧ env.has_next = false ∧
      env.has_previous = decide ((2 : Int) > 1) :=
  pagination_zero_total_metadata [] 2 10 (by omega) (by omega)

/-- C7: for valid parameters with total_results > 0 and page beyond the last
page, no error is raised; the envelope has an empty items list and exactly the
metadata computed from the given total_results, page and page_size, with
has_next = false and has_previous = true. -/
theorem paginated_response_out_of_range {α : Type} (items : List α)
    (total_results page page_size : Int)
    (hpage : 1 ≤ page) (hps : 1 ≤ page_size) (htr : 0 < total_results)
    (hover : (PaginationCalculator.make total_results page_size page).total_pages
      < page) :
    ∃ env : PaginatedResponse α,
      paginated_response items total_results page page_size none "ok" = .ok env ∧
      env.items = [] ∧
      env = create_paginated_dict_fast ([] : List α) total_results page page_size
        "" "ok" ∧
      env.has_next = false ∧ env.has_previous = true := by
  have hq : 1 ≤ (total_results + page_size - 1).fdiv page_size :=
    fdiv_ceil_pos total_results page_size htr (by omega)
  have hover' : (total_results + page_size - 1).fdiv page_size < page := by
    simpa only [PaginationCalculator.make,
      if_pos (show page_size > 0 by omega)] using hover
  have hcond : page > max 1 ((total_results + page_size - 1).fdiv page_size) ∧
      total_results > 0 := by
    constructor
    · rw [max_eq_right hq]; omega
    · omega
  refine ⟨_, paginated_response_valid_eq items total_results page page_size none "ok"
    hpage hps (by omega), ?_, ?_, ?_, ?_⟩
  · simp only [if_pos hcond]; rfl
  · simp only [if_pos hcond]; rfl
  · simp only [if_pos hcond, create_paginated_dict_fast, calculate_pagination_fast,
      PaginationCalculator.make, if_pos (show page_size > 0 by omega)]
    exact decide_eq_false (by omega)
  · simp only [if_pos hcond, create_paginated_dict_fast, calculate_pagination_fast,
      PaginationCalculator.make]
    exact decide_eq_true (by omega)

/-- C7 witness: total_results = 95, page_size = 10, page = 11 gives the empty
page with total_pages = 10, has_next = false, has_previous = true. -/
theorem paginated_response_out_of_range_witness :
    (∃ env : PaginatedResponse Nat,
      paginated_response ([7] : List Nat) 95 11 10 none "ok" = .ok env ∧
      env.items = [] ∧
      env = create_paginated_dict_fast ([] : List Nat) 95 11 10 "" "ok" ∧
      env.has_next = false ∧ env.has_previous = true) ∧
    (create_paginated_dict_fast ([] : List Nat) 95 11 10 "" "ok").total_pages = 10 :=
  ⟨paginated_response_out_of_range [7] 95 11 10 (by omega) (by omega) (by omega)
    (by decide), by rfl⟩

/-- C8: paginated_response raises PaginationError (never clamps) whenever
page < 1, page_size < 1 or total_results < 0, the error naming exactly the
offending parameter; on valid parameters no PaginationError is raised. -/
theorem pagination_precondition_rejection :
    (∀ (α : Type) (items : List α) (t pg ps : Int) (msg : Option String)
        (st : String), pg < 1 →
        paginated_response items t pg ps msg st =
          .error { page := some pg, page_size := none, total_results := none } ∧
        PaginationError.issues
            { page := some pg, page_size := none, total_results := none } =
          [.pageTooSmall pg]) ∧
    (∀ (α : Type) (items : List α) (t pg ps : Int) (msg : Option String)
        (st : String), 1 ≤ pg → ps < 1 →
        paginated_response items t pg ps msg st =
          .error { page := none, page_size := some ps, total_results := none } ∧
        PaginationError.issues
            { page := none, page_size := some ps, total_results := none } =
          [.pageSizeTooSmall ps]) ∧
    (∀ (α : Type) (items : List α) (t pg ps : Int) (msg : Option String)
        (st : String), 1 ≤ pg → 1 ≤ ps → t < 0 →
        paginated_response items t pg ps msg st =
          .error { page := none, page_size := none, total_results := some t } ∧
        PaginationError.issues
            { page := none, page_size := none, total_results := some t } =
          [.totalResultsNegative t]) ∧
    (∀ (α : Type) (items : List α) (t pg ps : Int) (msg : Option String)
        (st : String), 1 ≤ pg → 1 ≤ ps → 0 ≤ t →
        ∃ env : PaginatedResponse α,
          paginated_response items t pg ps msg st = .ok env) := by
  refine ⟨?_, ?_, ?_, ?_⟩
  · intro α items t pg ps msg st h1
    constructor
    · unfold paginated_response; rw [if_pos (by omega)]
    · simp only [PaginationError.issues, if_pos (show pg < 1 by omega)]; rfl
  · intro α items t pg ps msg st h1 h2
    constructor
    · unfold paginated_response; rw [if_neg (by omega), if_pos (by omega)]
    · simp only [PaginationError.issues, if_pos (show ps < 1 by omega)]; rfl
  · intro α items t pg ps msg st h1 h2 h3
    constructor
    · unfold paginated_response
      rw [if_neg (by omega), if_neg (by omega), if_pos (by omega)]
    · simp only [PaginationError.issues, if_pos (show t < 0 by omega)]; rfl
  · intro α items t pg ps msg st h1 h2 h3
    exact ⟨_, paginated_response_valid_eq items t pg ps msg st h1 h2 h3⟩

/-- C8 witness: page = 0, page_size = 0 and total_results = -1 each rejected
naming the one offending parameter; (page, page_size, total) = (1, 10, 5) is
accepted. -/
theorem pagination_precondition_rejection_witness :
    (paginated_response ([] : List Nat) 5 0 10 none "ok" =
        .error { page := some 0, page_size := none, total_results := none } ∧
      PaginationError.issues
          { page := some 0, page_size := none, total_results := none } =
        [.pageTooSmall 0]) ∧
    (paginated_response ([] : List Nat) 5 1 0 none "ok" =
        .error { page := none, page_size := some 0, total_results := none } ∧
      PaginationError.issues
          { page := none, page_size := some 0, total_results := none } =
        [.pageSizeTooSmall 0]) ∧
    (paginated_response ([] : List Nat) (-1) 1 10 none "ok" =
        .error { page := none, page_size := none, total_results := some (-1) } ∧
      PaginationError.issues
          { page := none, page_size := none, total_results := some (-1) } =
        [.totalResultsNegative (-1)]) ∧
    (∃ env : PaginatedResponse Nat,
      paginated_response ([] : List Nat) 5 1 10 none "ok" = .ok env) :=
  ⟨pagination_precondition_rejection.1 Nat [] 5 0 10 none "ok" (by omega),
   pagination_precondition_rejection.2.1 Nat [] 5 1 0 none "ok" (by omega) (by omega),
   pagination_precondition_rejection.2.2.1 Nat [] (-1) 1 10 none "ok" (by omega)
     (by omega) (by omega),
   pagination_precondition_rejection.2.2.2 Nat [] 5 1 10 none "ok" (by omega)
     (by omega) (by omega)⟩

/-- C10: with several invalid parameters at once, the raised PaginationError
names only the first invalid one in the fixed order page, page_size,
total_results; the remaining violations appear neither in the stored
parameters nor in the issues list. -/
theorem pagination_first_invalid_only :
    (∀ (α : Type) (items : List α) (t pg ps : Int) (msg : Option String)
        (st : String), pg < 1 → ps < 1 →
        ∃ e : PaginationError,
          paginated_response items t pg ps msg st = .error e ∧
          e.page = some pg ∧ e.page_size = none ∧ e.total_results = none ∧
          e.issues = [.pageTooSmall pg]) ∧
    (∀ (α : Type) (items : List α) (t pg ps : Int) (msg : Option String)
        (st : String), pg < 1 → t < 0 →
        ∃ e : PaginationError,
          paginated_response items t pg ps msg st = .error e ∧
          e.page = some pg ∧ e.page_size = none ∧ e.total_results = none ∧
          e.issues = [.pageTooSmall pg]) ∧
    (∀ (α : Type) (items : List α) (t pg ps : Int) (msg : Option String)
        (st : String), 1 ≤ pg → ps < 1 → t < 0 →
        ∃ e : PaginationError,
          paginated_response items t pg ps msg st = .error e ∧
          e.page = none ∧ e.page_size = some ps ∧ e.total_results = none ∧
          e.issues = [.pageSizeTooSmall ps]) := by
  refine ⟨?_, ?_, ?_⟩
  · intro α items t pg ps msg st h1 h2
    refine ⟨{ page := some pg, page_size := none, total_results := none },
      ?_, rfl, rfl, rfl, ?_⟩
    · unfold paginated_response; rw [if_pos (by omega)]
    · simp only [PaginationError.issues, if_pos (show pg < 1 by omega)]; rfl
  · intro α items t pg ps msg st h1 h2
    refine ⟨{ page := some pg, page_size := none, total_results := none },
      ?_, rfl, rfl, rfl, ?_⟩
    · unfold paginated_response; rw [if_pos (by omega)]
    · simp only [PaginationError.issues, if_pos (show pg < 1 by omega)]; rfl
  · intro α items t pg ps msg st h1 h2 h3
    refine ⟨{ page := none, page_size := some ps, total_results := none },
      ?_, rfl, rfl, rfl, ?_⟩
    · unfold paginated_response; rw [if_neg (by omega), if_pos (by omega)]
    · simp only [PaginationError.issues, if_pos (show ps < 1 by omega)]; rfl

/-- C10 witness: (page, page_size) = (0, 0), (page, total) = (0, -1) and
(page, page_size, total) = (1, 0, -1) each report only the first invalid
parameter. -/
theorem pagination_first_invalid_only_witness :
    (∃ e : PaginationError,
      paginated_response ([] : List Nat) 5 0 0 none "ok" = .error e ∧
      e.page = some 0 ∧ e.page_size = none ∧ e.total_results = none ∧
      e.issues = [.pageTooSmall 0]) ∧
    (∃ e : PaginationError,
      paginated_response ([] : List Nat) (-1) 0 10 none "ok" = .error e ∧
      e.page = some 0 ∧ e.page_size = none ∧ e.total_results = none ∧
      e.issues = [.pageTooSmall 0]) ∧
    (∃ e : PaginationError,
      paginated_response ([] : List Nat) (-1) 1 0 none "ok" = .error e ∧
      e.page = none ∧ e.page_size = some 0 ∧ e.total_results = none ∧
      e.issues = [.pageSizeTooSmall 0]) :=
  ⟨pagination_first_invalid_only.1 Nat [] 5 0 0 none "ok" (by omega) (by omega),
   pagination_first_invalid_only.2.1 Nat [] (-1) 0 10 none "ok" (by omega) (by omega),
   pagination_first_invalid_only.2.2 Nat [] (-1) 1 0 none "ok" (by omega) (by omega)
     (by omega)⟩

/-! ### msgspec type descriptors and the type converter
(`_speedups_fallback.py`, class `TypeConverter`)

A descriptor is dispatched on `type(field_type).__name__`; composite variants
carry their component descriptors behind `hasattr` checks, modelled with
`Option`.  Struct and enum classes are identified by a `Nat` identity (Python
class identity).  Unrecognized variant names fall to the `else: result = Any`
branch, modelled by `UnknownType`. -/

inductive MsgspecType where
  | IntType
  | StrType
  | FloatType
  | BoolType
  | ListType (item_type : Option MsgspecType)
  | DictType (key_value : Option (MsgspecType × MsgspecType))
  | SetType (item_type : Option MsgspecType)
  | TupleType (item_types : Option (List MsgspecType))
  | UnionType (types : Option (List MsgspecType))
  | StructType (cls : Nat)
  | EnumType (cls : Option Nat)
  | NoneType
  | Metadata (inner : Option MsgspecType)
  | DateTimeType
  | DateType
  | UUIDType
  | TimeType
  | TimeDeltaType
  | BytesType
  | ByteArrayType
  | DecimalType
  | UnknownType (tag : Nat)

/-- Python type annotations the converter can produce.  `union a b` is the
Python `a | b` expression (binary, left-associated by the fold in
`_convert_union_type`); `structSchema c` stands for the Pydantic model
`msgspec_to_pydantic(c)` returned for a nested struct; `any` is `typing.Any`. -/
inductive PyType where
  | int
  | str
  | float
  | bool
  | noneType
  | listOf (item : PyType)
  | listBare
  | dictOf (key value : PyType)
  | dictBare
  | setOf (item : PyType)
  | setBare
  | tupleOf (items : List PyType)
  | tupleBare
  | union (a b : PyType)
  | structSchema (cls : Nat)
  | enum (cls : Nat)
  | datetime
  | date
  | uuid
  | time
  | timedelta
  | bytes
  | bytearray
  | decimal
  | any

/-- The Python identity test `t is type(None)` used by `_convert_union_type`:
true exactly on the `NoneType` annotation. -/
def PyType.isNoneType : PyType → Bool
  | .noneType => true
  | _ => false

mutual

/-- `TypeConverter.convert_type` (pure-Python fallback).  `Option.none` models
a Python exception escaping: the only raise sites are the two `IndexError`
spots in `_convert_union_type` (`[...][0]` on an empty filter result and
`types[0]` on an empty member list).  The `_type_cache` is omitted: it caches
only scalar variants whose results are constants per variant name, so it never
changes a returned value. -/
def convert_type : MsgspecType → Option PyType
  | .IntType => some .int
  | .StrType => some .str
  | .FloatType => some .float
  | .BoolType => some .bool
  | .ListType (some item) => (convert_type item).map .listOf
  | .ListType none => some .listBare
  | .DictType (some (k, v)) =>
    match convert_type k, convert_type v with
    | some tk, some tv => some (.dictOf tk tv)
    | _, _ => none
  | .DictType none => some .dictBare
  | .SetType (some item) => (convert_type item).map .setOf
  | .SetType none => some .setBare
  | .TupleType (some items) => (convert_type_list items).map .tupleOf
  | .TupleType none => some .tupleBare
  | .UnionType (some members) =>
    match convert_type_list members with
    | none => none
    | some ts =>
      -- Optional collapsing: len(types) == 2 and type(None) in types
      if ts.length == 2 && ts.any PyType.isNoneType then
        match (ts.filter (fun t => !t.isNoneType)).head? with
        | some non_none => some (.union non_none .noneType)
        | none => none
      else
        match ts with
        | [] => none
        | t :: rest => some (rest.foldl .union t)
  | .UnionType none => some .any
  | .StructType cls => some (.structSchema cls)
  | .EnumType (some cls) => some (.enum cls)
  | .EnumType none => some .any
  | .NoneType => some .noneType
  | .Metadata (some inner) => convert_type inner
  | .Metadata none => some .any
  | .DateTimeType => some .datetime
  | .DateType => some .date
  | .UUIDType => some .uuid
  | .TimeType => some .time
  | .TimeDeltaType => some .timedelta
  | .BytesType => some .bytes
  | .ByteArrayType => some .bytearray
  | .DecimalType => some .decimal
  | .UnknownType _ => some .any

/-- Element-wise conversion of a descriptor list (the comprehensions in
`_convert_tuple_type` and `_convert_union_type`); a failing element aborts the
whole comprehension, as the Python exception would. -/
def convert_type_list : List MsgspecType → Option (List PyType)
  | [] => some []
  | t :: ts =>
    match convert_type t, convert_type_list ts with
    | some pt, some pts => some (pt :: pts)
    | _, _ => none

end

/-- `convert_msgspec_type_fast` delegates to the singleton converter. -/
def convert_msgspec_type_fast (field_type : MsgspecType) : Option PyType :=
  convert_type field_type

/-- C3: a Union descriptor whose member set is exactly {X, NoneType} (in either
member order) maps to optional X — the mapped X joined with None, never a
two-branch union with None first — and a Union whose mapped member list is
anything else maps to the union of all mapped members in order. -/
theorem union_optional_collapsing :
    (∀ (X : MsgspecType) (tX : PyType),
      convert_type X = some tX → tX.isNoneType = false →
      convert_type (.UnionType (some [X, .NoneType])) =
        some (.union tX .noneType) ∧
      convert_type (.UnionType (some [.NoneType, X])) =
        some (.union tX .noneType)) ∧
    (∀ (members : List MsgspecType) (t : PyType) (ts : List PyType),
      convert_type_list members = some (t :: ts) →
      ¬((t :: ts).length = 2 ∧ (t :: ts).any PyType.isNoneType = true) →
      convert_type (.UnionType (some members)) =
        some (ts.foldl PyType.union t)) := by
  constructor
  · intro X tX hX hnn
    have h1 : convert_type_list [X, .NoneType] = some [tX, .noneType] := by
      simp [convert_type_list, hX, convert_type]
    have h2 : convert_type_list [.NoneType, X] = some [.noneType, tX] := by
      simp [convert_type_list, hX, convert_type]
    cases tX <;> simp_all [convert_type, List.filter, PyType.isNoneType]
  · intro members t ts hms hcond
    have hb : (((t :: ts).length == 2) && (t :: ts).any PyType.isNoneType)
        = false := by
      by_contra hfb
      rw [Bool.not_eq_false, Bool.and_eq_true, beq_iff_eq] at hfb
      exact hcond ⟨hfb.1, hfb.2⟩
    simp only [convert_type, hms, hb]
    rfl

/-- C3 witness: Union(int, None) and Union(None, int) both collapse to
int | None; Union(int, str, None) stays the in-order union
(int | str) | None. -/
theorem union_optional_collapsing_witness :
    (convert_type (.UnionType (some [.IntType, .NoneType])) =
        some (.union .int .noneType) ∧
      convert_type (.UnionType (some [.NoneType, .IntType])) =
        some (.union .int .noneType)) ∧
    convert_type (.UnionType (some [.IntType, .StrType, .NoneType])) =
      some (([PyType.str, PyType.noneType]).foldl PyType.union .int) :=
  ⟨union_optional_collapsing.1 .IntType .int rfl rfl,
   union_optional_collapsing.2 [.IntType, .StrType, .NoneType] .int
     [.str, .noneType] rfl (by simp)⟩

/-! ### Schema conversion cache (`core.py`, `msgspec_to_pydantic`)

Python object identities (struct classes, generated model classes, exception
causes) are modelled as `Nat`.  `_SCHEMA_REGISTRY` is an assoc list (newest
entry first), the thread-local `_THREAD_LOCAL.processing` set a duplicate-free
list; `set.discard` removes every occurrence. -/

/-- Errors the `try` body of `msgspec_to_pydantic` (field processing +
`create_model`, possibly recursing into nested structs) can raise: a
`TypeConversionError` from a field conversion, or any other exception. -/
inductive BuildErr where
  | typeConversion (cause : Nat)
  | otherException (cause : Nat)
  deriving DecidableEq

/-- Errors `msgspec_to_pydantic` surfaces, per its `except` clauses:
`TypeConversionError` re-raised unchanged, anything else wrapped as
`SchemaGenerationError` naming the struct. -/
inductive SchemaErr where
  | typeConversion (cause : Nat)
  | schemaGeneration (struct_cls : Nat) (cause : Nat)
  deriving DecidableEq

/-- Shared registry plus the calling thread's in-flight processing set. -/
structure CacheState where
  registry : List (Nat × Nat)
  processing : List Nat
  deriving DecidableEq

/-- A call returns either a Pydantic model class or the forward-reference
string for `struct_cls` used to break recursion cycles. -/
inductive SchemaResult where
  | model (m : Nat)
  | forwardRef (struct_cls : Nat)
  deriving DecidableEq

/-- The builder run on a cache miss.  It may recursively call back into the
cache for nested structs, so it receives and returns the cache state; on
error the state it reached is kept (Python exceptions do not roll back side
effects). -/
def Builder : Type := Nat → CacheState → (Except BuildErr Nat) × CacheState

/-- `processing_set.discard(struct_cls)` in the `finally` clause. -/
def CacheState.discard (st : CacheState) (struct_cls : Nat) : CacheState :=
  { st with processing := st.processing.filter (fun x => decide (x ≠ struct_cls)) }

/-- Steps 3–4 of the cache algorithm (`core.py` lines 203–305): mark
`struct_cls` in flight, run the builder, wrap failures per the `except`
clauses, double-check the registry under `_REGISTRY_LOCK` — adopting an
existing winner and discarding the duplicate, else inserting — and always
remove the in-flight marker (`finally`). -/
def buildPath (builder : Builder) (struct_cls : Nat) (st : CacheState) :
    (Except SchemaErr SchemaResult) × CacheState :=
  match builder struct_cls { st with processing := struct_cls :: st.processing } with
  | (.ok m, st2) =>
    match st2.registry.lookup struct_cls with
    | some existing => (.ok (.model existing), st2.discard struct_cls)
    | none =>
      (.ok (.model m),
        { registry := (struct_cls, m) :: st2.registry,
          processing := (st2.discard struct_cls).processing })
  | (.error (.typeConversion c), st2) =>
    (.error (.typeConversion c), st2.discard struct_cls)
  | (.error (.otherException c), st2) =>
    (.error (.schemaGeneration struct_cls c), st2.discard struct_cls)

/-- `msgspec_to_pydantic`: lock-free fast-path read of the registry; then the
thread-local recursion guard returning the forward reference; otherwise the
build path. -/
def msgspec_to_pydantic (builder : Builder) (struct_cls : Nat)
    (st : CacheState) : (Except SchemaErr SchemaResult) × CacheState :=
  match st.registry.lookup struct_cls with
  | some cached => (.ok (.model cached), st)
  | none =>
    if struct_cls ∈ st.processing then (.ok (.forwardRef struct_cls), st)
    else buildPath builder struct_cls st

/-- A cache hit returns the registered model and leaves the state untouched. -/
theorem msgspec_to_pydantic_hit (builder : Builder) (struct_cls : Nat)
    (st : CacheState) (m : Nat) (h : st.registry.lookup struct_cls = some m) :
    msgspec_to_pydantic builder struct_cls st = (.ok (.model m), st) := by
  unfold msgspec_to_pydantic
  rw [h]

/-- C1: repeated calls return the identical model object and registry entries
are write-once: (a) a call finding a registry entry returns exactly that
model, unchanged state; (b) any call that returns a model leaves that model
registered for the struct, so every subsequent call (any builder) returns the
same object again without touching the state; (c) a present entry is never
reassigned by a call, provided the builder's own recursive calls preserve
present entries (in the source the builder writes only through this very
function). -/
theorem schema_cache_idempotent (builder : Builder) (struct_cls : Nat)
    (st : CacheState) :
    (∀ m, st.registry.lookup struct_cls = some m →
      msgspec_to_pydantic builder struct_cls st = (.ok (.model m), st)) ∧
    (∀ m st', msgspec_to_pydantic builder struct_cls st = (.ok (.model m), st') →
      st'.registry.lookup struct_cls = some m ∧
      ∀ builder' : Builder,
        msgspec_to_pydantic builder' struct_cls st' = (.ok (.model m), st')) ∧
    (∀ k v,
      (∀ s' stb k' v', stb.registry.lookup k' = some v' →
        (builder s' stb).2.registry.lookup k' = some v') →
      st.registry.lookup k = some v →
      (msgspec_to_pydantic builder struct_cls st).2.registry.lookup k = some v) := by
  refine ⟨?_, ?_, ?_⟩
  · exact fun m h => msgspec_to_pydantic_hit builder struct_cls st m h
  · intro m st' h
    have hreg : st'.registry.lookup struct_cls = some m := by
      unfold msgspec_to_pydantic at h
      cases hl : st.registry.lookup struct_cls with
      | some cached =>
        rw [hl] at h
        cases h
        exact hl
      | none =>
        rw [hl] at h
        by_cases hp : struct_cls ∈ st.processing
        · rw [if_pos hp] at h
          cases h
        · rw [if_neg hp] at h
          unfold buildPath at h
          cases hb : builder struct_cls
              { st with processing := struct_cls :: st.processing } with
          | mk r st2 =>
            rw [hb] at h
            cases r with
            | ok mb =>
              cases hl2 : st2.registry.lookup struct_cls with
              | some existing =>
                simp only [hl2] at h
                cases h
                simpa [CacheState.discard] using hl2
              | none =>
                simp only [hl2] at h
                cases h
                simp [List.lookup]
            | error e =>
              cases e <;> simp_all
    exact ⟨hreg, fun builder' =>
      msgspec_to_pydantic_hit builder' struct_cls st' m hreg⟩
  · intro k v hpres hk
    unfold msgspec_to_pydantic
    cases hl : st.registry.lookup struct_cls with
    | some cached => exact hk
    | none =>
      by_cases hp : struct_cls ∈ st.processing
      · rw [if_pos hp]
        exact hk
      · rw [if_neg hp]
        unfold buildPath
        cases hb : builder struct_cls
            { st with processing := struct_cls :: st.processing } with
        | mk r st2 =>
          have hk2 : st2.registry.lookup k = some v := by
            have := hpres struct_cls
              { st with processing := struct_cls :: st.processing } k v hk
            rwa [hb] at this
          cases r with
          | ok mb =>
            cases hl2 : st2.registry.lookup struct_cls with
            | some existing =>
              simp only [hl2]
              simpa [CacheState.discard] using hk2
            | none =>
              have hkne : (k == struct_cls) = false := by
                refine beq_eq_false_iff_ne.mpr ?_
                intro heq
                rw [heq] at hk2
                rw [hk2] at hl2
                cases hl2
              simp only [hl2]
              simp [List.lookup, hkne, hk2]
          | error e =>
            cases e <;> simpa [CacheState.discard] using hk2

/-- C1 witness: with a builder that returns model 42, a prefilled registry is
served from cache, a fresh build registers 42 and a repeat call (different
builder) still returns 42 with the entry unchanged. -/
theorem schema_cache_idempotent_witness :
    msgspec_to_pydantic (fun _ stb => (.ok 42, stb)) 5
        { registry := [(5, 42)], processing := [] } =
      (.ok (.model 42), { registry := [(5, 42)], processing := [] }) ∧
    ({ registry := [(5, 42)], processing := [] } : CacheState).registry.lookup 5 =
      some 42 ∧
    (msgspec_to_pydantic (fun _ stb => (.ok 99, stb)) 5
        { registry := [(5, 42)], processing := [] }).2.registry.lookup 5 =
      some 42 :=
  ⟨(schema_cache_idempotent (fun _ stb => (.ok 42, stb)) 5
      { registry := [(5, 42)], processing := [] }).1 42 (by rfl),
   ((schema_cache_idempotent (fun _ stb => (.ok 42, stb)) 5
      { registry := [], processing := [] }).2.1 42
      { registry := [(5, 42)], processing := [] } (by rfl)).1,
   (schema_cache_idempotent (fun _ stb => (.ok 99, stb)) 5
      { registry := [(5, 42)], processing := [] }).2.2 5 42
      (fun _ _ _ _ h => h) (by rfl)⟩

/-- How `msgspec_to_pydantic`'s `except` clauses surface a builder failure:
`TypeConversionError` is re-raised unchanged, any other exception is wrapped
as `SchemaGenerationError` naming the struct. -/
def wrapBuildErr (struct_cls : Nat) : BuildErr → SchemaErr
  | .typeConversion c => .typeConversion c
  | .otherException c => .schemaGeneration struct_cls c

/-- C4: when the builder raises while building struct S from a fresh state
(S uncached and not in flight), then (1) S is removed from the thread's
in-flight processing set — the `finally` cleanup runs on the failure path too;
(2) the failure propagates to the caller (wrapped per the `except` clauses);
(3) no registry entry exists for S — the builder itself registers only the
nested structs it completes, hypothesis `hreg2` — so a subsequent call for S
takes the full build path again (neither the cache fast path nor the forward
reference). -/
theorem schema_cache_build_failure (builder : Builder) (struct_cls : Nat)
    (st st2 : CacheState) (e : BuildErr)
    (hreg : st.registry.lookup struct_cls = none)
    (hproc : struct_cls ∉ st.processing)
    (hbuild : builder struct_cls
      { st with processing := struct_cls :: st.processing } = (.error e, st2))
    (hreg2 : st2.registry.lookup struct_cls = none) :
    msgspec_to_pydantic builder struct_cls st =
      (.error (wrapBuildErr struct_cls e), st2.discard struct_cls) ∧
    struct_cls ∉ (st2.discard struct_cls).processing ∧
    (st2.discard struct_cls).registry.lookup struct_cls = none ∧
    (∀ builder' : Builder,
      msgspec_to_pydantic builder' struct_cls (st2.discard struct_cls) =
        buildPath builder' struct_cls (st2.discard struct_cls)) := by
  have hdisc : struct_cls ∉ (st2.discard struct_cls).processing := by
    simp [CacheState.discard, List.mem_filter]
  refine ⟨?_, hdisc, hreg2, ?_⟩
  · unfold msgspec_to_pydantic
    rw [hreg, if_neg hproc]
    unfold buildPath
    rw [hbuild]
    cases e <;> rfl
  · intro builder'
    unfold msgspec_to_pydantic
    rw [show (st2.discard struct_cls).registry.lookup struct_cls = none from hreg2,
      if_neg hdisc]

/-- C4 witness: a builder that raises a generic exception (cause 3) on struct
5: the call fails with SchemaGenerationError naming struct 5, the in-flight
marker is gone, nothing is cached for 5, and a retry with a succeeding
builder builds and registers model 77. -/
theorem schema_cache_build_failure_witness :
    msgspec_to_pydantic (fun _ stb => (.error (.otherException 3), stb)) 5
        { registry := [], processing := [] } =
      (.error (.schemaGeneration 5 3),
        ({ registry := [], processing := [5] } : CacheState).discard 5) ∧
    (5 : Nat) ∉ (({ registry := [], processing := [5] } : CacheState).discard 5).processing ∧
    (({ registry := [], processing := [5] } : CacheState).discard 5).registry.lookup 5 =
      none ∧
    msgspec_to_pydantic (fun _ stb => (.ok 77, stb)) 5
        (({ registry := [], processing := [5] } : CacheState).discard 5) =
      (.ok (.model 77), { registry := [(5, 77)], processing := [] }) := by
  have h := schema_cache_build_failure
    (fun _ stb => (.error (.otherException 3), stb)) 5
    { registry := [], processing := [] }
    { registry := [], processing := [5] }
    (.otherException 3) (by rfl) (by simp) (by rfl) (by rfl)
  refine ⟨h.1, h.2.1, h.2.2.1, ?_⟩
  rw [h.2.2.2 (fun _ stb => (.ok 77, stb))]
  rfl

/-! ### Concurrent first use of the cache (claim C2)

N worker threads call `msgspec_to_pydantic` for one never-before-seen struct
type S.  Per thread the call is: a lock-free registry read (a thread whose
read happens after some publication returns the cached winner — `fastHit`),
an unlocked build producing a private candidate model (`build`; the read may
be stale, so `build` is enabled regardless of the current registry), and the
`_REGISTRY_LOCK`-serialized double-checked section, which installs the
candidate if the entry is still absent (`publishFirst`) or discards the
duplicate and adopts the installed winner (`publishLater`).  The registry is
projected to S's entry (`reg`); interleaving of threads is arbitrary. -/

inductive ThreadPhase where
  | start
  | built (m : Nat)
  | done (ret : Nat)
  deriving DecidableEq

structure ConcSys (n : Nat) where
  reg : Option Nat
  threads : Fin n → ThreadPhase

inductive ConcStep (n : Nat) : ConcSys n → ConcSys n → Prop where
  | fastHit (st : ConcSys n) (i : Fin n) (w : Nat) :
      st.threads i = .start → st.reg = some w →
      ConcStep n st
        { reg := st.reg, threads := Function.update st.threads i (.done w) }
  | build (st : ConcSys n) (i : Fin n) (m : Nat) :
      st.threads i = .start →
      ConcStep n st
        { reg := st.reg, threads := Function.update st.threads i (.built m) }
  | publishFirst (st : ConcSys n) (i : Fin n) (m : Nat) :
      st.threads i = .built m → st.reg = none →
      ConcStep n st
        { reg := some m, threads := Function.update st.threads i (.done m) }
  | publishLater (st : ConcSys n) (i : Fin n) (m w : Nat) :
      st.threads i = .built m → st.reg = some w →
      ConcStep n st
        { reg := st.reg, threads := Function.update st.threads i (.done w) }

/-- Every finished thread returned exactly the currently registered model. -/
def ConcInv {n : Nat} (st : ConcSys n) : Prop :=
  ∀ i r, st.threads i = .done r → st.reg = some r

theorem concStep_preserves_inv {n : Nat} {st st' : ConcSys n}
    (h : ConcStep n st st') (hinv : ConcInv st) : ConcInv st' := by
  cases h with
  | fastHit i w hti hreg =>
    intro j r hj
    dsimp only at hj ⊢
    by_cases hij : j = i
    · subst hij
      rw [Function.update_same] at hj
      cases hj
      exact hreg
    · rw [Function.update_noteq hij] at hj
      exact hinv j r hj
  | build i m hti =>
    intro j r hj
    dsimp only at hj ⊢
    by_cases hij : j = i
    · subst hij
      rw [Function.update_same] at hj
      cases hj
    · rw [Function.update_noteq hij] at hj
      exact hinv j r hj
  | publishFirst i m hti hreg =>
    intro j r hj
    dsimp only at hj ⊢
    by_cases hij : j = i
    · subst hij
      rw [Function.update_same] at hj
      cases hj
      rfl
    · rw [Function.update_noteq hij] at hj
      have := hinv j r hj
      rw [hreg] at this
      cases this
  | publishLater i m w hti hreg =>
    intro j r hj
    dsimp only at hj ⊢
    by_cases hij : j = i
    · subst hij
      rw [Function.update_same] at hj
      cases hj
      exact hreg
    · rw [Function.update_noteq hij] at hj
      exact hinv j r hj

/-- C2: from an initial state where S is unseen (no registry entry, all N
threads at the start), along any interleaving after which every thread has
finished, there is a single winner w: the registry entry for S is w and every
thread's call returned w — so a losing thread's duplicate model is discarded,
never surfaced.  Moreover no thread can get stuck: any unfinished thread
always has an enabled next step, so every call completes. -/
theorem concurrent_first_use (n : Nat) (hn : 0 < n) (init fin : ConcSys n)
    (hreg : init.reg = none) (hstart : ∀ i, init.threads i = .start)
    (htrace : Relation.ReflTransGen (ConcStep n) init fin)
    (hdone : ∀ i, ∃ r, fin.threads i = .done r) :
    (∃ w, fin.reg = some w ∧ ∀ i, fin.threads i = .done w) ∧
    (∀ st : ConcSys n, ∀ i : Fin n, (∀ r, st.threads i ≠ .done r) →
      ∃ st', ConcStep n st st') := by
  constructor
  · have hinv : ConcInv fin := by
      have hinit : ConcInv init := by
        intro i r hi
        rw [hstart i] at hi
        cases hi
      clear hreg hstart hdone
      induction htrace with
      | refl => exact hinit
      | tail _ hstep ih => exact concStep_preserves_inv hstep ih
    obtain ⟨r0, hr0⟩ := hdone ⟨0, hn⟩
    refine ⟨r0, hinv _ r0 hr0, ?_⟩
    intro i
    obtain ⟨ri, hri⟩ := hdone i
    have h1 := hinv i ri hri
    have h2 := hinv _ r0 hr0
    rw [h1] at h2
    cases h2
    exact hri
  · intro st i hnotdone
    cases hph : st.threads i with
    | start =>
      exact ⟨_, ConcStep.build st i 0 hph⟩
    | built m =>
      cases hr : st.reg with
      | none => exact ⟨_, ConcStep.publishFirst st i m hph hr⟩
      | some w => exact ⟨_, ConcStep.publishLater st i m w hph hr⟩
    | done r =>
      exact absurd hph (hnotdone r)

/-! Concrete two-thread interleaving for the C2 witness: both threads build
before either publishes, so thread 1's model 20 is a discarded duplicate. -/

def concInit : ConcSys 2 := { reg := none, threads := fun _ => .start }

def concS1 : ConcSys 2 :=
  { reg := concInit.reg,
    threads := Function.update concInit.threads 0 (.built 10) }

def concS2 : ConcSys 2 :=
  { reg := concS1.reg,
    threads := Function.update concS1.threads 1 (.built 20) }

def concS3 : ConcSys 2 :=
  { reg := some 10, threads := Function.update concS2.threads 0 (.done 10) }

def concS4 : ConcSys 2 :=
  { reg := concS3.reg,
    threads := Function.update concS3.threads 1 (.done 10) }

/-- C2 witness: two threads race on an unseen struct; thread 0 builds model
10, thread 1 builds the duplicate 20; thread 0 publishes first, thread 1
adopts the winner, and both calls return model 10. -/
theorem concurrent_first_use_witness :
    (∃ w, concS4.reg = some w ∧ ∀ i : Fin 2, concS4.threads i = .done w) ∧
    (∀ st : ConcSys 2, ∀ i : Fin 2, (∀ r, st.threads i ≠ .done r) →
      ∃ st', ConcStep 2 st st') := by
  refine concurrent_first_use 2 (by omega) concInit concS4 rfl (fun _ => rfl) ?_ ?_
  · exact Relation.ReflTransGen.head (ConcStep.build concInit 0 10 rfl)
      (Relation.ReflTransGen.head (ConcStep.build concS1 1 20 rfl)
        (Relation.ReflTransGen.head
          (ConcStep.publishFirst concS2 0 10 rfl rfl)
          (Relation.ReflTransGen.head
            (ConcStep.publishLater concS3 1 20 10 rfl rfl)
            Relation.ReflTransGen.refl)))
  · intro i
    fin_cases i
    · exact ⟨10, rfl⟩
    · exact ⟨10, rfl⟩

/-! ### Response building and the error surface (`core.py`, `response` and
the full `paginated_response` including serialization; claim C9)

`msgspec.json.encode` runs inside `MsgspecJSONResponse.__init__` (the render
happens at construction); the codec is an external black box, so its outcome
is a parameter.  A `msgspec.EncodeError` is caught and re-raised as
`ResponseSerializationError`; any other exception is swallowed by the
`except Exception` clause, which returns the 500 fallback error response. -/

structure ResponseModel (α : Type) where
  status : String
  data : Option α
  message : String
  deriving DecidableEq

/-- `create_response_dict_fast` from `_speedups_fallback.py`. -/
def create_response_dict_fast {α : Type} (data : Option α)
    (message status : String) : ResponseModel α :=
  { status := status, data := data, message := message }

/-- Outcome of the codec's encode call on a given body. -/
inductive EncodeOutcome where
  | success
  | encodeError (cause : Nat)
  | otherException (cause : Nat)
  deriving DecidableEq

/-- Every exception kind that exists around the modelled public operations.
The raw codec kinds arise inside the `try` blocks; the theorems below show
they are never surfaced to a caller. -/
inductive CoreError where
  | typeConversionError (cause : Nat)
  | schemaGenerationError (struct_cls : Nat) (cause : Nat)
  | paginationError (e : PaginationError)
  | responseSerializationError (cause : Nat)
  | rawEncodeError (cause : Nat)
  | rawOtherException (cause : Nat)
  deriving DecidableEq

structure MsgspecJSONResponse (α : Type) where
  content : ResponseModel α
  status_code : Int
  deriving DecidableEq

/-- `core.response`: build the response dict and model, render it;
`msgspec.EncodeError` becomes `ResponseSerializationError`, any other
exception becomes the 500 fallback error response (not an exception).
The `except Exception` fallback body:
`ResponseModel(status="error", data=None, message=f"Failed to create ...")`. -/
def fallbackResponseModel (α : Type) : ResponseModel α :=
  { status := "error", data := none, message := "Failed to create response" }

def response {α : Type} (encode : ResponseModel α → EncodeOutcome)
    (data : Option α) (message : Option String) (status : String)
    (status_code : Int) : Except CoreError (MsgspecJSONResponse α) :=
  match encode (create_response_dict_fast data (message.getD "") status) with
  | .success =>
    .ok { content := create_response_dict_fast data (message.getD "") status,
          status_code := status_code }
  | .encodeError c => .error (.responseSerializationError c)
  | .otherException _ => .ok { content := fallbackResponseModel α, status_code := 500 }

structure PaginatedJSONResponse (α : Type) where
  envelope : Option (PaginatedResponse α)
  status_code : Int
  deriving DecidableEq

/-- The full `core.paginated_response`: parameter validation and envelope
construction (the `paginated_response` model above, whose `PaginationError`
is raised outside the `try` block), then rendering with the same
`except` clauses as `response`.  `envelope := none` is the 500 fallback
error body. -/
def paginated_response_render {α : Type}
    (encode : PaginatedResponse α → EncodeOutcome) (items : List α)
    (total_results page page_size : Int) (message : Option String)
    (status : String) (status_code : Int) :
    Except CoreError (PaginatedJSONResponse α) :=
  match paginated_response items total_results page page_size message status with
  | .error pe => .error (.paginationError pe)
  | .ok env =>
    match encode env with
    | .success => .ok { envelope := some env, status_code := status_code }
    | .encodeError c => .error (.responseSerializationError c)
    | .otherException _ => .ok { envelope := none, status_code := 500 }

/-- The spec's error-surface sentence: only TypeConversionError,
SchemaGenerationError and PaginationError may reach a caller. -/
def specErrorKind (e : CoreError) : Prop :=
  (∃ c, e = .typeConversionError c) ∨
  (∃ s c, e = .schemaGenerationError s c) ∨
  (∃ pe, e = .paginationError pe)

/-- C9 as stated is false on the code: `response` on a payload the codec
rejects raises `ResponseSerializationError` (`core.py` lines 374–376, and its
docstring documents it), a fourth error kind outside the claimed three. -/
theorem error_surface_counterexample :
    response (fun _ : ResponseModel Nat => EncodeOutcome.encodeError 7)
        (some 1) none "ok" 200 =
      .error (.responseSerializationError 7) ∧
    ¬ specErrorKind (.responseSerializationError 7) := by
  constructor
  · rfl
  · rintro (⟨c, hc⟩ | ⟨s, c, hc⟩ | ⟨pe, hc⟩) <;> cases hc

/-- C9 amended: every error the core's public operations surface is one of
TypeConversionError, SchemaGenerationError, PaginationError or
ResponseSerializationError.  `response` surfaces only
ResponseSerializationError (raw codec errors are always wrapped and other
exceptions become the 500 fallback response); the full paginated response
additionally PaginationError; schema conversion only TypeConversionError and
SchemaGenerationError. -/
theorem error_surface_amended :
    (∀ (α : Type) (encode : ResponseModel α → EncodeOutcome) (data : Option α)
        (message : Option String) (status : String) (status_code : Int)
        (e : CoreError),
      response encode data message status status_code = .error e →
      ∃ c, e = .responseSerializationError c) ∧
    (∀ (α : Type) (encode : PaginatedResponse α → EncodeOutcome)
        (items : List α) (t pg ps : Int) (message : Option String)
        (status : String) (status_code : Int) (e : CoreError),
      paginated_response_render encode items t pg ps message status status_code =
        .error e →
      (∃ pe, e = .paginationError pe) ∨
      ∃ c, e = .responseSerializationError c) ∧
    (∀ (builder : Builder) (struct_cls : Nat) (stc stc' : CacheState)
        (e : SchemaErr),
      (msgspec_to_pydantic builder struct_cls stc) = (.error e, stc') →
      (∃ c, e = .typeConversion c) ∨
      ∃ s c, e = .schemaGeneration s c) := by
  refine ⟨?_, ?_, ?_⟩
  · intro α encode data message status status_code e h
    unfold response at h
    cases hE : encode (create_response_dict_fast data (message.getD "") status) with
    | success => rw [hE] at h; cases h
    | encodeError c =>
      rw [hE] at h
      cases h
      exact ⟨c, rfl⟩
    | otherException c => rw [hE] at h; cases h
  · intro α encode items t pg ps message status status_code e h
    unfold paginated_response_render at h
    cases hP : paginated_response items t pg ps message status with
    | error pe =>
      rw [hP] at h
      cases h
      exact Or.inl ⟨pe, rfl⟩
    | ok env =>
      rw [hP] at h
      dsimp only at h
      cases hE : encode env with
      | success => rw [hE] at h; cases h
      | encodeError c =>
        rw [hE] at h
        cases h
        exact Or.inr ⟨c, rfl⟩
      | otherException c => rw [hE] at h; cases h
  · intro builder struct_cls stc stc' e h
    cases e with
    | typeConversion c => exact Or.inl ⟨c, rfl⟩
    | schemaGeneration s c => exact Or.inr ⟨s, c, rfl⟩

/-- C9 amended witness: the encode failure surfaces as
ResponseSerializationError; page = 0 surfaces as PaginationError; a builder
raising TypeConversionError surfaces it unchanged. -/
theorem error_surface_amended_witness :
    (∃ c, (CoreError.responseSerializationError 7) =
      .responseSerializationError c) ∧
    ((∃ pe, (CoreError.paginationError
        { page := some 0, page_size := none, total_results := none }) =
        .paginationError pe) ∨
      ∃ c, (CoreError.paginationError
        { page := some 0, page_size := none, total_results := none }) =
        .responseSerializationError c) ∧
    ((∃ c, (SchemaErr.typeConversion 9) = .typeConversion c) ∨
      ∃ s c, (SchemaErr.typeConversion 9) = .schemaGeneration s c) :=
  ⟨error_surface_amended.1 Nat (fun _ => .encodeError 7) (some 1) none "ok" 200
      (.responseSerializationError 7) rfl,
   error_surface_amended.2.1 Nat (fun _ => .success) [] 5 0 10 none "ok" 200
      (.paginationError { page := some 0, page_size := none, total_results := none })
      rfl,
   error_surface_amended.2.2 (fun _ stb => (.error (.typeConversion 9), stb)) 5
      { registry := [], processing := [] }
      (({ registry := [], processing := [5] } : CacheState).discard 5)
      (.typeConversion 9) rfl⟩

end FastapiAdvanced
